import Mathlib

/-
Verification of micro's web resource analysis and file storage engine
(micro/resource.py, with helpers from micro/util.py), as a shallow
embedding. Bytes are lists of naturals, network and image decoding are
oracles passed as parameters, and stateful objects become explicit state
passing. Time is a natural number of seconds.
-/

namespace Micro

/-- Raw byte data. Byte values are irrelevant to the properties proved here. -/
abbrev Bytes := List Nat

/-- Errors raised by the embedded code. `valueError` is micro's
`error.ValueError` (which subclasses the builtin); `builtinValueError` is
Python's plain `ValueError`, raised bare by the source in two places. -/
inductive Err where
  | valueError (message : String)
  | builtinValueError (message : String)
  | lookupError (message : String)
  | noResourceError (message : String)
  | forbiddenResourceError (message : String)
  | communicationError (message : String)
  | brokenResourceError (message : String)
deriving Repr, DecidableEq

deriving instance DecidableEq for Except

/-- util.py `str_or_none`: the string if it has content, otherwise none; a
string has content if it contains at least one non-whitespace character
(so it is nonempty and its strip is nonempty). -/
def str_or_none (s : String) : Option String :=
  if s.toList.any (fun c => !c.isWhitespace) then some s else none

/-- `Resource.Thumbnail`: url of a stored, downsized preview image. -/
structure Thumbnail where
  url : String
deriving Repr, DecidableEq

/-- The `Resource` dataclass fields. -/
structure Resource where
  url : String
  content_type : String
  description : Option String := none
  thumbnail : Option Thumbnail := none
deriving Repr, DecidableEq

/-- Body of the method the source names `__post__init__` (resource.py
lines 95-100): the validation intended to run on construction. -/
def Resource.post_init_hook (r : Resource) : Except Err Resource :=
  if str_or_none r.url = none then .error (.valueError "Blank url")
  else if str_or_none r.content_type = none then .error (.valueError "Blank content_type")
  else .ok { r with description :=
              match r.description with
              | some d => if d = "" then none else str_or_none d
              | none => none }

/-- Constructing a `Resource` as the dataclass machinery actually does:
fields are assigned, and a hook would run only if it were named exactly
`__post_init__`. The source defines its hook as `__post__init__` (extra
underscore), a name the machinery does not recognize, so no validation runs
and construction always succeeds. -/
def Resource.construct (url content_type : String) (description : Option String)
    (thumbnail : Option Thumbnail) : Except Err Resource :=
  .ok { url := url, content_type := content_type, description := description,
        thumbnail := thumbnail }

/- ---------------------------------------------------------------------
urllib.parse.urlsplit, restricted to the scheme and path components used
by the source (netloc, query and fragment are recognized and skipped).
--------------------------------------------------------------------- -/

/-- Characters allowed in a URL scheme after the initial letter. -/
def schemeChar (c : Char) : Bool :=
  c.isAlphanum || c == '+' || c == '-' || c == '.'

/-- Scan for the `scheme:` prefix: collected scheme characters, then the
rest after the colon. Fails if a non-scheme character appears first. -/
def splitSchemeAux : List Char → List Char → Option (List Char × List Char)
  | _, [] => none
  | acc, c :: rest =>
      if c = ':' then some (acc.reverse, rest)
      else if schemeChar c then splitSchemeAux (c :: acc) rest
      else none

/-- Split a URL into its (lowercased) scheme and the remainder; a URL
without a valid scheme (which must start with a letter) has scheme "". -/
def url_scheme_rest (url : String) : String × String :=
  match splitSchemeAux [] url.toList with
  | some (c :: s, rest) =>
      if c.isAlpha then (String.mk ((c :: s).map Char.toLower), String.mk rest)
      else ("", url)
  | some ([], _) => ("", url)
  | none => ("", url)

/-- Take characters up to (excluding) the first stop character. -/
def takeUntilStop (stops : List Char) : List Char → List Char
  | [] => []
  | c :: rest => if stops.contains c then [] else c :: takeUntilStop stops rest

/-- The path component of a URL: what follows the scheme and the
`//netloc` part, up to the query or fragment. -/
def url_path (url : String) : String :=
  let rest := (url_scheme_rest url).2
  match rest.toList with
  | '/' :: '/' :: cs =>
      let after := cs.dropWhile (fun c => !(c == '/' || c == '?' || c == '#'))
      String.mk (takeUntilStop ['?', '#'] after)
  | cs => String.mk (takeUntilStop ['?', '#'] cs)

/-- Python's `s.lstrip('/')`. -/
def lstrip_slash (s : String) : String :=
  String.mk (s.toList.dropWhile (fun c => c == '/'))

/- ---------------------------------------------------------------------
mimetypes with `mimetypes.init(files=())`: the stdlib's built-in media
type table (restricted to the types this development exercises; every
type outside the table maps to none, as an unknown type does there).
--------------------------------------------------------------------- -/

/-- mimetypes.guess_extension: media type to canonical filename extension. -/
def guess_extension : String → Option String
  | "image/bmp" => some ".bmp"
  | "image/gif" => some ".gif"
  | "image/jpeg" => some ".jpg"
  | "image/png" => some ".png"
  | "image/svg+xml" => some ".svg"
  | "text/html" => some ".html"
  | "text/plain" => some ".txt"
  | _ => none

/-- Split a character list at its last dot: the part before and the part
from the dot on. -/
def last_dot_split : List Char → Option (List Char × List Char)
  | [] => none
  | c :: rest =>
      match last_dot_split rest with
      | some (b, e) => some (c :: b, e)
      | none => if c = '.' then some ([], '.' :: rest) else none

/-- posixpath.splitext's extension: from the last dot, provided a non-dot
character precedes it (leading dots name a hidden file, not an extension). -/
def splitext_ext (name : String) : String :=
  match last_dot_split name.toList with
  | none => ""
  | some (before, ext) =>
      if before.any (fun c => c != '.') then String.mk ext else ""

/-- Inverse of the extension table (guess_type's lookup). -/
def ext_to_type : String → Option String
  | ".bmp" => some "image/bmp"
  | ".gif" => some "image/gif"
  | ".jpg" => some "image/jpeg"
  | ".jpeg" => some "image/jpeg"
  | ".png" => some "image/png"
  | ".svg" => some "image/svg+xml"
  | ".html" => some "text/html"
  | ".htm" => some "text/html"
  | ".txt" => some "text/plain"
  | _ => none

/-- mimetypes.guess_type: media type of a file name, by extension
(lowercased, as the stdlib does). -/
def guess_type (name : String) : Option String :=
  ext_to_type (String.mk ((splitext_ext name).toList.map Char.toLower))

/- ---------------------------------------------------------------------
Files: simple content-addressed file storage. The backing directory is a
finite map from filename to contents; operations built here keep its
keys unique, matching a real directory listing.
--------------------------------------------------------------------- -/

/-- The file store's directory: filename and contents of each stored file. -/
structure FilesState where
  store : List (String × Bytes)
deriving Repr, DecidableEq

/-- Assignment `d[k] = v` in an insertion ordered string-keyed map — a
Python dict, or a directory seen as the map filename ↦ contents (writing a
file replaces its contents in place, else creates it): overwrite the entry
if the key is present, otherwise append a new entry. -/
def dict_put {β : Type} (d : List (String × β)) (k : String) (v : β) :
    List (String × β) :=
  if d.any (fun e => e.1 == k) then
    d.map (fun e => if e.1 = k then (k, v) else e)
  else d ++ [(k, v)]

/-- Files.write: hash the data (the sha256 hex digest is the `digest`
parameter), map the media type to its extension (bare builtin ValueError
if unknown), dump the bytes under digest+extension and return the file URL. -/
def Files.write (digest : Bytes → String) (fs : FilesState) (data : Bytes)
    (content_type : String) : Except Err (String × FilesState) :=
  let d := digest data
  match guess_extension content_type with
  | none => .error (.builtinValueError ("Unknown content_type " ++ content_type))
  | some ext =>
      let name := d ++ ext
      .ok ("file:/" ++ name, ⟨dict_put fs.store name data⟩)

/-- Files.read: check the scheme is file (or empty), take the path minus
leading slashes as the name, guess its media type, and load it; a name with
a slash, an unguessable type or a missing file is a LookupError. -/
def Files.read (fs : FilesState) (url : String) : Except Err (Bytes × String) :=
  let scheme := (url_scheme_rest url).1
  if scheme ≠ "" ∧ scheme ≠ "file" then
    .error (.builtinValueError ("Bad url scheme " ++ url))
  else
    let name := lstrip_slash (url_path url)
    match guess_type name with
    | none => .error (.lookupError url)
    | some content_type =>
        if name.toList.contains '/' then .error (.lookupError url)
        else
          match fs.store.lookup name with
          | none => .error (.lookupError url)
          | some data => .ok (data, content_type)

/-- Files.garbage_collect: delete the stored files whose names are not
among the filenames referenced by the given URLs; return how many. -/
def Files.garbage_collect (fs : FilesState) (references : List String) :
    Nat × FilesState :=
  let refNames := references.map (fun url => lstrip_slash (url_path url))
  let garbage := fs.store.filter (fun e => !(refNames.contains e.1))
  let kept := fs.store.filter (fun e => refNames.contains e.1)
  (garbage.length, ⟨kept⟩)

/- ---------------------------------------------------------------------
Analyzer: cache, fetch, analyze, thumbnail. The cache is the insertion
ordered dictionary `OrderedDict`, embedded as a list in insertion order
(oldest first); its keys are unique on every cache these operations
build, so deleting a key below is a filter.
--------------------------------------------------------------------- -/

/-- A cache: url key, cached resource, expiry instant, in insertion order. -/
abbrev Cache := List (String × Resource × Nat)

/-- Analyzer._CACHE_SIZE. -/
def CACHE_SIZE : Nat := 128

/-- Analyzer._CACHE_TTL: one hour, in seconds. -/
def CACHE_TTL : Nat := 3600

/-- Analyzer._get_cache: a missing key is a miss; a key at or past its
expiry is deleted and is a miss; otherwise the resource is returned and
the cache (including its order) is untouched. -/
def get_cache (cache : Cache) (url : String) (now : Nat) : Option Resource × Cache :=
  match cache.lookup url with
  | none => (none, cache)
  | some (resource, expires) =>
      if expires ≤ now then (none, cache.filter (fun e => e.1 != url))
      else (some resource, cache)

/-- Analyzer._set_cache: delete any entry for the key, evict the oldest
inserted entry if still at capacity, then append the new entry expiring at
now + TTL. -/
def set_cache (cache : Cache) (url : String) (resource : Resource) (now : Nat) : Cache :=
  let c := cache.filter (fun e => e.1 != url)
  let c := if c.length = CACHE_SIZE then c.tail else c
  c ++ [(url, resource, now + CACHE_TTL)]

/-- Outcome of the network primitive webapi.fetch for one URL: a response,
or one of the exceptions Analyzer.fetch distinguishes. -/
inductive NetResult where
  | ok (body : Bytes) (content_type_header : String) (effective_url : String)
  | badUrl
  | httpError (code : Nat)
  | netFail
deriving Repr, DecidableEq

/-- The network branch of Analyzer.fetch: strip header parameters from the
media type; classify a bad scheme as micro's ValueError, 404/410 as
no-resource, 401/402/403/405/451 as forbidden, any other HTTP error status
as a communication error; an OS-level failure arrives as (and stays) a
communication error. -/
def net_fetch (net : String → NetResult) (url : String) :
    Except Err (Bytes × String × String) :=
  match net url with
  | .ok body header effective_url =>
      .ok (body, String.mk (takeUntilStop [';'] header.toList), effective_url)
  | .badUrl => .error (.valueError ("Bad url scheme " ++ url))
  | .netFail => .error (.communicationError ("connection failure for GET " ++ url))
  | .httpError code =>
      if code = 404 ∨ code = 410 then
        .error (.noResourceError ("No resource at " ++ url))
      else if code = 401 ∨ code = 402 ∨ code = 403 ∨ code = 405 ∨ code = 451 then
        .error (.forbiddenResourceError ("Forbidden resource at " ++ url))
      else
        .error (.communicationError ("Unexpected response status for GET " ++ url))

/-- Analyzer.fetch: with a file store configured and a file URL, read from
the store, turning a LookupError into a no-resource error; otherwise hit
the network. -/
def Analyzer.fetch (files : Option FilesState) (net : String → NetResult)
    (url : String) : Except Err (Bytes × String × String) :=
  match files with
  | some fs =>
      if (url_scheme_rest url).1 = "file" then
        match Files.read fs url with
        | .ok (data, content_type) => .ok (data, content_type, url)
        | .error (.lookupError _) => .error (.noResourceError ("No resource at " ++ url))
        | .error e => .error e
      else net_fetch net url
  | none => net_fetch net url

/-- A resource handler: from effective url, media type and data to no
result, a resource, or an error. -/
abbrev Handler := String → String → Bytes → Except Err (Option Resource)

/-- The handler loop of Analyzer.analyze: first non-none result wins,
errors propagate. -/
def run_handlers : List Handler → String → String → Bytes → Except Err (Option Resource)
  | [], _, _, _ => .ok none
  | h :: rest, url, content_type, data =>
      match h url content_type data with
      | .error e => .error e
      | .ok (some resource) => .ok (some resource)
      | .ok none => run_handlers rest url content_type data

/-- Analyzer's mutable state: the cache, plus an instrumentation counter of
Analyzer.fetch invocations (the spec's fetch-call counter). -/
structure AnalyzerState where
  cache : Cache
  fetch_count : Nat
deriving Repr, DecidableEq

/-- Analyzer.analyze: return a live cached resource directly; otherwise
fetch once, dispatch to the handlers, fall back to a bare generic
Resource(effective_url, content_type), and cache the result under the
requested URL and under the resource's own URL. -/
def Analyzer.analyze (files : Option FilesState) (net : String → NetResult)
    (handlers : List Handler) (st : AnalyzerState) (url : String) (now : Nat) :
    Except Err Resource × AnalyzerState :=
  match get_cache st.cache url now with
  | (some resource, c) => (.ok resource, { st with cache := c })
  | (none, c) =>
      match Analyzer.fetch files net url with
      | .error e => (.error e, ⟨c, st.fetch_count + 1⟩)
      | .ok (data, content_type, effective_url) =>
          match run_handlers handlers effective_url content_type data with
          | .error e => (.error e, ⟨c, st.fetch_count + 1⟩)
          | .ok r =>
              let resource := r.getD { url := effective_url, content_type := content_type }
              let c := set_cache c url resource now
              let c := set_cache c resource.url resource now
              (.ok resource, ⟨c, st.fetch_count + 1⟩)

/-- Outcome of the PIL pipeline (open, exif transpose, downscale within
THUMBNAIL_SIZE, re-encode) on given data and format: the re-encoded bytes,
a DecompressionBombError, or any other decode failure (OSError). -/
inductive DecodeResult where
  | ok (thumb : Bytes)
  | bomb
  | fail
deriving Repr, DecidableEq

/-- Analyzer.thumbnail on raw bytes: no file store is a bare builtin
ValueError; the four raster types go through the decode pipeline, whose
bomb and failure outcomes become broken-resource errors; svg data is kept
unmodified; any other media type is a broken resource. The result is
written to the file store. -/
def Analyzer.thumbnail (digest : Bytes → String) (decode : Bytes → String → DecodeResult)
    (files : Option FilesState) (data : Bytes) (content_type : String) :
    Except Err (Thumbnail × FilesState) :=
  match files with
  | none => .error (.builtinValueError "No files")
  | some fs =>
      let processed : Except Err Bytes :=
        if content_type = "image/bmp" ∨ content_type = "image/gif" ∨
            content_type = "image/jpeg" ∨ content_type = "image/png" then
          match decode data content_type with
          | .ok thumb => .ok thumb
          | .bomb => .error (.brokenResourceError "Exceeding data size")
          | .fail => .error (.brokenResourceError "Bad data")
        else if content_type = "image/svg+xml" then .ok data
        else .error (.brokenResourceError ("Unknown content_type " ++ content_type))
      match processed with
      | .error e => .error e
      | .ok d =>
          match Files.write digest fs d content_type with
          | .error e => .error e
          | .ok (url, fs2) => .ok (⟨url⟩, fs2)

/- ---------------------------------------------------------------------
_MetaParser: the streaming markup scan used by handle_webpage. The stdlib
HTMLParser base class turns the document into a stream of start-tag,
end-tag and character-data events; _MetaParser is the event machine
embedded here.
--------------------------------------------------------------------- -/

/-- One HTMLParser callback event. Attribute values may be absent. -/
inductive HtmlEvent where
  | starttag (tag : String) (attrs : List (String × Option String))
  | endtag (tag : String)
  | text (s : String)
deriving Repr, DecidableEq

/-- _MetaParser's state: the `meta` dictionary (insertion ordered, keys
unique on every reachable state) and `_read_tag_data`. -/
structure MetaState where
  meta : List (String × String)
  read_tag_data : Option String
deriving Repr, DecidableEq

/-- Dictionary `d[k] += s`. The machine only ever appends to a key it has
just created, so the key is present on every reachable state. -/
def dict_append (d : List (String × String)) (k s : String) :
    List (String × String) :=
  d.map (fun e => if e.1 = k then (e.1, e.2 ++ s) else e)

/-- _MetaParser.handle_starttag: outside a title, a `title` tag resets
`meta["title"]` to the empty string and starts collecting character data;
a `meta` tag with a name-or-property key (first such attribute) and a
content value (first such attribute) assigns `meta[key] = value`. -/
def meta_handle_starttag (st : MetaState) (tag : String)
    (attrs : List (String × Option String)) : MetaState :=
  if st.read_tag_data.isSome then st
  else if tag = "title" then
    { meta := dict_put st.meta "title" "", read_tag_data := some "title" }
  else if tag = "meta" then
    match (attrs.find? (fun a => a.1 == "name" || a.1 == "property")).bind Prod.snd,
          (attrs.find? (fun a => a.1 == "content")).bind Prod.snd with
    | some key, some value => { st with meta := dict_put st.meta key value }
    | _, _ => st
  else st

/-- One event step of _MetaParser. -/
def meta_step (st : MetaState) : HtmlEvent → MetaState
  | .starttag tag attrs => meta_handle_starttag st tag attrs
  | .endtag tag =>
      if st.read_tag_data = some tag then { st with read_tag_data := none } else st
  | .text s =>
      match st.read_tag_data with
      | some k => { st with meta := dict_append st.meta k s }
      | none => st

/-- Feeding a whole event stream to a fresh _MetaParser. -/
def meta_run (events : List HtmlEvent) : MetaState :=
  events.foldl meta_step ⟨[], none⟩

/-- Python's `a or b` on an optional string: the first operand unless it is
None or empty. -/
def py_or (a : Option String) (b : Option String) : Option String :=
  match a with
  | some s => if s = "" then b else some s
  | none => b

/-- handle_webpage's description: `str_or_none(meta.get("og:title") or
meta.get("title") or "")`, preferring the Open Graph title. -/
def webpage_description (meta : List (String × String)) : Option String :=
  str_or_none ((py_or (meta.lookup "og:title")
    (py_or (meta.lookup "title") (some ""))).getD "")

/-- handle_webpage's representative image URL: `meta.get("og:image") or
meta.get("og:image:url") or meta.get("og:image:secure_url")`. -/
def webpage_image_url (meta : List (String × String)) : Option String :=
  py_or (meta.lookup "og:image")
    (py_or (meta.lookup "og:image:url") (meta.lookup "og:image:secure_url"))

/- ---------------------------------------------------------------------
Helper lemmas on insertion ordered maps.
--------------------------------------------------------------------- -/

theorem any_key_dict_put {β : Type} (d : List (String × β)) (k : String) (v : β) :
    (dict_put d k v).any (fun e => e.1 == k) = true := by
  unfold dict_put
  split
  · rename_i h
    rw [List.any_eq_true] at h ⊢
    obtain ⟨e, he, hk⟩ := h
    refine ⟨(k, v), List.mem_map.mpr ⟨e, he, ?_⟩, by simp⟩
    simp only [beq_iff_eq] at hk
    simp [hk]
  · rw [List.any_eq_true]
    exact ⟨(k, v), List.mem_append.mpr (Or.inr (by simp)), by simp⟩

theorem key_entries_dict_put {β : Type} (d : List (String × β)) (k : String) (v : β) :
    ∀ e ∈ dict_put d k v, e.1 = k → e = (k, v) := by
  unfold dict_put
  split
  · intro e he hk
    obtain ⟨a, _, rfl⟩ := List.mem_map.mp he
    by_cases h : a.1 = k
    · simp [h]
    · simp only [if_neg h] at hk ⊢
      exact absurd hk h
  · rename_i hany
    intro e he hk
    rcases List.mem_append.mp he with h | h
    · exact absurd (List.any_eq_true.mpr ⟨e, h, by simp [hk]⟩) hany
    · simpa using h

theorem lookup_cons_self {β : Type} (k : String) (v : β) (t : List (String × β)) :
    List.lookup k ((k, v) :: t) = some v := by
  simp [List.lookup]

theorem lookup_cons_of_ne {β : Type} (k ka : String) (va : β) (t : List (String × β))
    (h : ka ≠ k) : List.lookup k ((ka, va) :: t) = List.lookup k t := by
  have hne : (k == ka) = false := by
    simp only [beq_eq_false_iff_ne]
    exact fun hh => h hh.symm
  simp [List.lookup, hne]

theorem lookup_map_overwrite {β : Type} (d : List (String × β)) (k : String) (v : β)
    (h : d.any (fun e => e.1 == k) = true) :
    (d.map (fun e => if e.1 = k then (k, v) else e)).lookup k = some v := by
  induction d with
  | nil => simp at h
  | cons a t ih =>
      obtain ⟨ka, va⟩ := a
      by_cases hk : ka = k
      · subst hk
        simp only [List.map_cons, if_true]
        exact lookup_cons_self ka v _
      · have ht : t.any (fun e => e.1 == k) = true := by
          simpa [List.any_cons, hk] using h
        simp only [List.map_cons]
        rw [if_neg hk, lookup_cons_of_ne _ _ _ _ hk]
        exact ih ht

theorem lookup_append_single {β : Type} (d : List (String × β)) (k : String) (v : β)
    (h : ∀ e ∈ d, e.1 ≠ k) :
    (d ++ [(k, v)]).lookup k = some v := by
  induction d with
  | nil => exact lookup_cons_self k v []
  | cons a t ih =>
      obtain ⟨ka, va⟩ := a
      rw [List.cons_append, lookup_cons_of_ne _ _ _ _ (h (ka, va) (List.mem_cons_self _ _))]
      exact ih (fun e he => h e (List.mem_cons_of_mem _ he))

theorem lookup_dict_put {β : Type} (d : List (String × β)) (k : String) (v : β) :
    (dict_put d k v).lookup k = some v := by
  unfold dict_put
  split
  · rename_i h
    exact lookup_map_overwrite d k v h
  · rename_i h
    refine lookup_append_single d k v (fun e he hk => ?_)
    exact h (List.any_eq_true.mpr ⟨e, he, by simp [hk]⟩)

theorem map_overwrite_id {β : Type} (d : List (String × β)) (k : String) (v : β)
    (h : ∀ e ∈ d, e.1 = k → e = (k, v)) :
    d.map (fun e => if e.1 = k then (k, v) else e) = d := by
  induction d with
  | nil => rfl
  | cons a t ih =>
      simp only [List.map_cons]
      rw [ih (fun e he => h e (List.mem_cons_of_mem a he))]
      by_cases hk : a.1 = k
      · rw [if_pos hk, ← h a (List.mem_cons_self a t) hk]
      · rw [if_neg hk]

theorem dict_put_eq_self {β : Type} (d : List (String × β)) (k : String) (v : β)
    (h1 : d.any (fun e => e.1 == k) = true)
    (h2 : ∀ e ∈ d, e.1 = k → e = (k, v)) :
    dict_put d k v = d := by
  unfold dict_put
  rw [if_pos h1]
  exact map_overwrite_id d k v h2

/-- Writing the same key-value pair twice is the same as writing it once. -/
theorem dict_put_idem {β : Type} (d : List (String × β)) (k : String) (v : β) :
    dict_put (dict_put d k v) k v = dict_put d k v :=
  dict_put_eq_self (dict_put d k v) k v (any_key_dict_put d k v)
    (key_entries_dict_put d k v)

/-- Appending a string to a dict entry, observed at the entry's key. -/
theorem lookup_dict_append (d : List (String × String)) (k s : String) :
    (dict_append d k s).lookup k = (d.lookup k).map (fun t => t ++ s) := by
  induction d with
  | nil => simp [dict_append, List.lookup]
  | cons a t ih =>
      obtain ⟨ka, va⟩ := a
      by_cases hk : ka = k
      · subst hk
        simp only [dict_append, List.map_cons, if_true] at ih ⊢
        rw [lookup_cons_self, lookup_cons_self]
        rfl
      · simp only [dict_append, List.map_cons] at ih ⊢
        rw [if_neg hk, lookup_cons_of_ne _ _ _ _ hk, lookup_cons_of_ne _ _ _ _ hk]
        exact ih

/- ---------------------------------------------------------------------
Claim theorems.
--------------------------------------------------------------------- -/

/-- C1: the spec says constructing a `Resource` with a blank or
whitespace-only url or content type fails with a validation error. The
validation body the source wrote (under the misnamed hook `__post__init__`)
would indeed reject such input, but the dataclass machinery never invokes
it, so construction of a `Resource` with a blank url and a whitespace-only
content type in fact succeeds: the spec captures the intent, the code has
a slip. -/
theorem c1_blank_resource_construction_succeeds :
    Resource.construct "" " " none none =
      .ok { url := "", content_type := " ", description := none, thumbnail := none } ∧
    Resource.post_init_hook
        { url := "", content_type := " ", description := none, thumbnail := none } =
      .error (.valueError "Blank url") ∧
    Resource.post_init_hook
        { url := "https://example.org/", content_type := " ", description := none,
          thumbnail := none } =
      .error (.valueError "Blank content_type") := by
  exact ⟨rfl, rfl, rfl⟩

/-- C10: calling Analyzer.thumbnail on raw bytes while no file store is
configured raises Python's plain builtin ValueError — not one of the typed
errors of the spec's taxonomy — for every data and content type, and
before the decode pipeline is ever consulted (the result is independent of
the decode oracle). -/
theorem c10_thumbnail_without_files_plain_value_error (digest : Bytes → String)
    (decode : Bytes → String → DecodeResult) (data : Bytes) (content_type : String) :
    Analyzer.thumbnail digest decode none data content_type =
      .error (.builtinValueError "No files") := rfl

/-- C6: for raster input whose decode reports a decompression bomb or
otherwise fails, thumbnail raises a broken-resource error (never the raw
decoder exception); svg input is stored byte-for-byte unmodified with no
resizing, whatever the decode oracle would do; and every content type
outside the five-type allow list is rejected as a broken resource. -/
theorem c6_thumbnail_error_handling (digest : Bytes → String)
    (decode : Bytes → String → DecodeResult) (fs : FilesState) (data : Bytes)
    (content_type : String) :
    (content_type ∈ (["image/bmp", "image/gif", "image/jpeg", "image/png"] : List String) →
      (decode data content_type = .bomb →
        Analyzer.thumbnail digest decode (some fs) data content_type =
          .error (.brokenResourceError "Exceeding data size")) ∧
      (decode data content_type = .fail →
        Analyzer.thumbnail digest decode (some fs) data content_type =
          .error (.brokenResourceError "Bad data"))) ∧
    (Analyzer.thumbnail digest decode (some fs) data "image/svg+xml" =
      .ok (⟨"file:/" ++ (digest data ++ ".svg")⟩,
           ⟨dict_put fs.store (digest data ++ ".svg") data⟩)) ∧
    (content_type ∉ (["image/bmp", "image/gif", "image/jpeg", "image/png",
                      "image/svg+xml"] : List String) →
      Analyzer.thumbnail digest decode (some fs) data content_type =
        .error (.brokenResourceError ("Unknown content_type " ++ content_type))) := by
  refine ⟨fun hmem => ⟨fun hdec => ?_, fun hdec => ?_⟩, ?_, fun hmem => ?_⟩
  · fin_cases hmem <;> simp [Analyzer.thumbnail, hdec]
  · fin_cases hmem <;> simp [Analyzer.thumbnail, hdec]
  · simp [Analyzer.thumbnail, Files.write, guess_extension]
  · simp only [List.mem_cons, List.mem_singleton, not_or] at hmem
    obtain ⟨h1, h2, h3, h4, h5⟩ := hmem
    simp [Analyzer.thumbnail, h1, h2, h3, h4, h5]

/-- C6 witness: the three hypothetical parts evaluated at concrete
inputs: a gif whose decode reports a bomb, a png whose decode fails, and
an unknown media type. -/
theorem c6_thumbnail_error_handling_witness :
    Analyzer.thumbnail (fun _ => "d") (fun _ _ => .bomb) (some ⟨[]⟩) [0] "image/gif" =
      .error (.brokenResourceError "Exceeding data size") ∧
    Analyzer.thumbnail (fun _ => "d") (fun _ _ => .fail) (some ⟨[]⟩) [0] "image/png" =
      .error (.brokenResourceError "Bad data") ∧
    Analyzer.thumbnail (fun _ => "d") (fun _ _ => .fail) (some ⟨[]⟩) [0] "text/plain" =
      .error (.brokenResourceError "Unknown content_type text/plain") :=
  ⟨((c6_thumbnail_error_handling (fun _ => "d") (fun _ _ => .bomb) ⟨[]⟩ [0]
      "image/gif").1 (by decide)).1 rfl,
   ((c6_thumbnail_error_handling (fun _ => "d") (fun _ _ => .fail) ⟨[]⟩ [0]
      "image/png").1 (by decide)).2 rfl,
   (c6_thumbnail_error_handling (fun _ => "d") (fun _ _ => .fail) ⟨[]⟩ [0]
      "text/plain").2.2 (by decide)⟩

/-- C7: Files.write is idempotent for any recognized media type: a second
write of identical data and media type returns the identical
file:/digest+extension URL and leaves the store exactly as the first write
left it (exactly one file is stored, as the lookup shows); an unknown
media type fails with the (builtin) ValueError the spec's taxonomy calls a
validation error. -/
theorem c7_files_write_idempotent (digest : Bytes → String) (fs : FilesState)
    (data : Bytes) (content_type ext : String) :
    (guess_extension content_type = some ext →
      Files.write digest fs data content_type =
        .ok ("file:/" ++ (digest data ++ ext),
             ⟨dict_put fs.store (digest data ++ ext) data⟩) ∧
      Files.write digest ⟨dict_put fs.store (digest data ++ ext) data⟩ data content_type =
        .ok ("file:/" ++ (digest data ++ ext),
             ⟨dict_put fs.store (digest data ++ ext) data⟩) ∧
      (dict_put fs.store (digest data ++ ext) data).lookup (digest data ++ ext) =
        some data) ∧
    (guess_extension content_type = none →
      Files.write digest fs data content_type =
        .error (.builtinValueError ("Unknown content_type " ++ content_type))) := by
  constructor
  · intro h
    refine ⟨?_, ?_, lookup_dict_put _ _ _⟩
    · simp [Files.write, h]
    · simp [Files.write, h, dict_put_idem]
  · intro h
    simp [Files.write, h]

/-- C7 witness: both parts at concrete inputs — a png written twice, and
an unrecognized media type. -/
theorem c7_files_write_idempotent_witness :
    (Files.write (fun _ => "d") ⟨[]⟩ [0] "image/png" =
       .ok ("file:/" ++ ("d" ++ ".png"), ⟨dict_put [] ("d" ++ ".png") [0]⟩) ∧
     Files.write (fun _ => "d") ⟨dict_put [] ("d" ++ ".png") [0]⟩ [0] "image/png" =
       .ok ("file:/" ++ ("d" ++ ".png"), ⟨dict_put [] ("d" ++ ".png") [0]⟩) ∧
     (dict_put ([] : List (String × Bytes)) ("d" ++ ".png") [0]).lookup ("d" ++ ".png") =
       some [0]) ∧
    Files.write (fun _ => "d") ⟨[]⟩ [0] "application/x-foo" =
      .error (.builtinValueError ("Unknown content_type " ++ "application/x-foo")) :=
  ⟨(c7_files_write_idempotent (fun _ => "d") ⟨[]⟩ [0] "image/png" ".png").1 rfl,
   (c7_files_write_idempotent (fun _ => "d") ⟨[]⟩ [0] "application/x-foo" ".png").2 rfl⟩

/-- C8 counterexample: one digest function, identical content, two
recognized media types — the stored filenames differ (the extension comes
from the media type) and the store ends up with two copies of the same
bytes, refuting filename identity regardless of supplied media type. -/
theorem c8_content_addressing_counterexample :
    Files.write (fun _ => "d") ⟨[]⟩ [0] "image/png" =
      .ok ("file:/d.png", ⟨[("d.png", [0])]⟩) ∧
    Files.write (fun _ => "d") ⟨[("d.png", [0])]⟩ [0] "image/jpeg" =
      .ok ("file:/d.jpg", ⟨[("d.png", [0]), ("d.jpg", [0])]⟩) ∧
    ("d.png" : String) ≠ "d.jpg" := by
  decide

/-- The URL component of a Files.write result. -/
def write_url (digest : Bytes → String) (fs : FilesState) (data : Bytes)
    (content_type : String) : Option String :=
  match Files.write digest fs data content_type with
  | .ok (url, _) => some url
  | .error _ => none

theorem string_append_left_cancel (c a b : String) (h : c ++ a = c ++ b) : a = b := by
  cases a; cases b; cases c
  simp only [String.ext_iff, String.data_append] at h ⊢
  exact List.append_cancel_left h

theorem string_append_right_cancel (c a b : String) (h : a ++ c = b ++ c) : a = b := by
  cases a; cases b; cases c
  simp only [String.ext_iff, String.data_append] at h ⊢
  exact List.append_cancel_right h

/-- C8 amended: for a fixed recognized media type, the stored filename and
URL of written content are a function of the content's digest alone — the
same bytes map to the same URL whatever the prior store state — and
contents with distinct digests map to distinct URLs. The media-type
independence asserted by the original claim is refuted by the
counterexample: the filename extension comes from the media type. -/
theorem c8_content_addressing_amended (digest : Bytes → String)
    (fs1 fs2 : FilesState) (d1 d2 : Bytes) (content_type ext : String)
    (h : guess_extension content_type = some ext) :
    (digest d1 = digest d2 →
      write_url digest fs1 d1 content_type = write_url digest fs2 d2 content_type) ∧
    (digest d1 ≠ digest d2 →
      write_url digest fs1 d1 content_type ≠ write_url digest fs2 d2 content_type) := by
  have e1 : write_url digest fs1 d1 content_type =
      some ("file:/" ++ (digest d1 ++ ext)) := by
    simp [write_url, Files.write, h]
  have e2 : write_url digest fs2 d2 content_type =
      some ("file:/" ++ (digest d2 ++ ext)) := by
    simp [write_url, Files.write, h]
  rw [e1, e2]
  constructor
  · intro hd
    rw [hd]
  · intro hd hcontra
    apply hd
    have h1 := Option.some.inj hcontra
    have h2 := string_append_left_cancel _ _ _ h1
    exact string_append_right_cancel _ _ _ h2

/-- C8 amended witness: with a digest distinguishing empty from nonempty
content, the same bytes written into two different stores get one URL, and
bytes with distinct digests get distinct URLs. -/
theorem c8_content_addressing_amended_witness :
    (write_url (fun l => if l.length = 0 then "a" else "b") ⟨[]⟩ [] "image/png" =
     write_url (fun l => if l.length = 0 then "a" else "b") ⟨[("x", [1])]⟩ []
       "image/png") ∧
    (write_url (fun l => if l.length = 0 then "a" else "b") ⟨[]⟩ [] "image/png" ≠
     write_url (fun l => if l.length = 0 then "a" else "b") ⟨[("x", [1])]⟩ [0]
       "image/png") :=
  ⟨(c8_content_addressing_amended (fun l => if l.length = 0 then "a" else "b")
      ⟨[]⟩ ⟨[("x", [1])]⟩ [] [] "image/png" ".png" rfl).1 rfl,
   (c8_content_addressing_amended (fun l => if l.length = 0 then "a" else "b")
      ⟨[]⟩ ⟨[("x", [1])]⟩ [] [0] "image/png" ".png" rfl).2 (by decide)⟩

/-- C4: Analyzer.fetch classifies a transport failure for a non-file URL
exactly as the taxonomy says: a bad URL scheme raises micro's ValueError
(the validation error); status 404 or 410 a no-resource error; 401, 402,
403, 405 or 451 a forbidden-resource error; any other error status (500
among them) a communication error; and with a file store configured, a
file URL whose file is missing raises a no-resource error. -/
theorem c4_fetch_error_taxonomy (files : Option FilesState) (fs : FilesState)
    (net : String → NetResult) (url furl : String) (code : Nat)
    (hscheme : (url_scheme_rest url).1 ≠ "file") :
    (net url = .badUrl →
      Analyzer.fetch files net url = .error (.valueError ("Bad url scheme " ++ url))) ∧
    (net url = .httpError code →
      ((code = 404 ∨ code = 410) →
        Analyzer.fetch files net url =
          .error (.noResourceError ("No resource at " ++ url))) ∧
      ((code = 401 ∨ code = 402 ∨ code = 403 ∨ code = 405 ∨ code = 451) →
        Analyzer.fetch files net url =
          .error (.forbiddenResourceError ("Forbidden resource at " ++ url))) ∧
      (¬(code = 404 ∨ code = 410) →
        ¬(code = 401 ∨ code = 402 ∨ code = 403 ∨ code = 405 ∨ code = 451) →
        Analyzer.fetch files net url =
          .error (.communicationError ("Unexpected response status for GET " ++ url)))) ∧
    ((url_scheme_rest furl).1 = "file" →
      Files.read fs furl = .error (.lookupError furl) →
      Analyzer.fetch (some fs) net furl =
        .error (.noResourceError ("No resource at " ++ furl))) := by
  have hfa : Analyzer.fetch files net url = net_fetch net url := by
    cases files with
    | none => rfl
    | some fs' => simp [Analyzer.fetch, hscheme]
  refine ⟨?_, ?_, ?_⟩
  · intro h
    rw [hfa]
    simp [net_fetch, h]
  · intro h
    refine ⟨?_, ?_, ?_⟩
    · rintro (rfl | rfl) <;> rw [hfa] <;> simp [net_fetch, h]
    · rintro (rfl | rfl | rfl | rfl | rfl) <;> rw [hfa] <;> simp [net_fetch, h]
    · intro h1 h2
      rw [hfa]
      simp [net_fetch, h, h1, h2]
  · intro hs hr
    simp [Analyzer.fetch, hs, hr]

/-- C4 witness: the classification at concrete inputs — a bad scheme, a
404, a 403, a 500, and a missing file behind a file URL. -/
theorem c4_fetch_error_taxonomy_witness :
    Analyzer.fetch none (fun _ => .badUrl) "https://x/" =
      .error (.valueError ("Bad url scheme " ++ "https://x/")) ∧
    Analyzer.fetch none (fun _ => .httpError 404) "https://x/" =
      .error (.noResourceError ("No resource at " ++ "https://x/")) ∧
    Analyzer.fetch none (fun _ => .httpError 403) "https://x/" =
      .error (.forbiddenResourceError ("Forbidden resource at " ++ "https://x/")) ∧
    Analyzer.fetch none (fun _ => .httpError 500) "https://x/" =
      .error (.communicationError ("Unexpected response status for GET " ++ "https://x/")) ∧
    Analyzer.fetch (some ⟨[]⟩) (fun _ => .httpError 500) "file:/a.png" =
      .error (.noResourceError ("No resource at " ++ "file:/a.png")) :=
  ⟨(c4_fetch_error_taxonomy none ⟨[]⟩ (fun _ => .badUrl) "https://x/" "file:/a.png" 0
      (by decide)).1 rfl,
   ((c4_fetch_error_taxonomy none ⟨[]⟩ (fun _ => .httpError 404) "https://x/"
      "file:/a.png" 404 (by decide)).2.1 rfl).1 (Or.inl rfl),
   ((c4_fetch_error_taxonomy none ⟨[]⟩ (fun _ => .httpError 403) "https://x/"
      "file:/a.png" 403 (by decide)).2.1 rfl).2.1 (Or.inr (Or.inr (Or.inl rfl))),
   ((c4_fetch_error_taxonomy none ⟨[]⟩ (fun _ => .httpError 500) "https://x/"
      "file:/a.png" 500 (by decide)).2.1 rfl).2.2 (by decide) (by decide),
   (c4_fetch_error_taxonomy (some ⟨[]⟩) ⟨[]⟩ (fun _ => .httpError 500) "https://x/"
      "file:/a.png" 0 (by decide)).2.2 (by decide) (by decide)⟩

/-- C2: on a live cache hit, analyze returns the cached resource and the
fetch counter does not move (zero network fetches); on a miss it fetches
exactly once and inserts the result into the cache under both the
requested URL and the resource's own URL; and when every handler declines,
the result is the bare generic Resource of the effective URL and media
type, with no description and no thumbnail. -/
theorem c2_analyze_cache_and_fallback (files : Option FilesState)
    (net : String → NetResult) (handlers : List Handler) (st : AnalyzerState)
    (url : String) (now : Nat) (r : Resource) (c : Cache) (data : Bytes)
    (content_type effective_url : String) :
    (get_cache st.cache url now = (some r, c) →
      Analyzer.analyze files net handlers st url now =
        (.ok r, ⟨c, st.fetch_count⟩)) ∧
    (get_cache st.cache url now = (none, c) →
      Analyzer.fetch files net url = .ok (data, content_type, effective_url) →
      (run_handlers handlers effective_url content_type data = .ok (some r) →
        Analyzer.analyze files net handlers st url now =
          (.ok r, ⟨set_cache (set_cache c url r now) r.url r now,
                   st.fetch_count + 1⟩)) ∧
      (run_handlers handlers effective_url content_type data = .ok none →
        Analyzer.analyze files net handlers st url now =
          (.ok { url := effective_url, content_type := content_type,
                 description := none, thumbnail := none },
           ⟨set_cache
              (set_cache c url
                { url := effective_url, content_type := content_type,
                  description := none, thumbnail := none } now)
              effective_url
              { url := effective_url, content_type := content_type,
                description := none, thumbnail := none } now,
            st.fetch_count + 1⟩))) := by
  constructor
  · intro hget
    simp [Analyzer.analyze, hget]
  · intro hget hfetch
    constructor
    · intro hrun
      simp [Analyzer.analyze, hget, hfetch, hrun]
    · intro hrun
      simp [Analyzer.analyze, hget, hfetch, hrun]

/-- C2 witness: a hit on a one-entry cache leaves the counter at zero, and
a miss on an empty cache with no handlers fetches once and caches the
generic resource under both URLs. -/
theorem c2_analyze_cache_and_fallback_witness :
    (Analyzer.analyze none (fun _ => .netFail) []
        ⟨[("u", { url := "e", content_type := "text/html",
                  description := none, thumbnail := none }, 10)], 0⟩ "u" 5 =
      (.ok { url := "e", content_type := "text/html",
             description := none, thumbnail := none },
       ⟨[("u", { url := "e", content_type := "text/html",
                 description := none, thumbnail := none }, 10)], 0⟩)) ∧
    (Analyzer.analyze none (fun _ => .ok [9] "text/html; charset=utf-8" "eff") []
        ⟨[], 0⟩ "u" 5 =
      (.ok { url := "eff", content_type := "text/html",
             description := none, thumbnail := none },
       ⟨set_cache
          (set_cache [] "u"
            { url := "eff", content_type := "text/html",
              description := none, thumbnail := none } 5)
          "eff"
          { url := "eff", content_type := "text/html",
            description := none, thumbnail := none } 5,
        1⟩)) :=
  ⟨(c2_analyze_cache_and_fallback none (fun _ => .netFail) []
      ⟨[("u", { url := "e", content_type := "text/html",
                description := none, thumbnail := none }, 10)], 0⟩ "u" 5
      { url := "e", content_type := "text/html",
        description := none, thumbnail := none }
      [("u", { url := "e", content_type := "text/html",
               description := none, thumbnail := none }, 10)]
      [] "" "").1 (by decide),
   ((c2_analyze_cache_and_fallback none (fun _ => .ok [9] "text/html; charset=utf-8" "eff")
      [] ⟨[], 0⟩ "u" 5
      { url := "eff", content_type := "text/html",
        description := none, thumbnail := none }
      [] [9] "text/html" "eff").2 rfl (by decide)).2 rfl⟩

/-- C3: the cache never exceeds CACHE_SIZE entries (a set preserves the
bound, a get never grows it); a get that finds an entry at or past its
expiry deletes that entry and misses, while a live hit returns the
resource and leaves the cache — including its insertion order — exactly
unchanged (reads do not refresh recency); a set inserts the new entry
expiring at now + CACHE_TTL (one hour); and a set of a fresh key on a
cache at capacity evicts exactly the oldest-inserted entry (the head of
the insertion order) while a cache under capacity evicts nothing. -/
theorem c3_cache_maintenance (cache : Cache) (url : String) (r resource0 : Resource)
    (now expires : Nat) :
    (cache.length ≤ CACHE_SIZE → (set_cache cache url r now).length ≤ CACHE_SIZE) ∧
    ((get_cache cache url now).2.length ≤ cache.length) ∧
    (cache.lookup url = some (resource0, expires) → expires ≤ now →
      get_cache cache url now = (none, cache.filter (fun e => e.1 != url))) ∧
    (cache.lookup url = some (resource0, expires) → now < expires →
      get_cache cache url now = (some resource0, cache)) ∧
    ((set_cache cache url r now).lookup url = some (r, now + CACHE_TTL)) ∧
    (url ∉ cache.map (fun e => e.1) →
      (cache.length = CACHE_SIZE →
        set_cache cache url r now = cache.tail ++ [(url, r, now + CACHE_TTL)]) ∧
      (cache.length < CACHE_SIZE →
        set_cache cache url r now = cache ++ [(url, r, now + CACHE_TTL)])) := by
  have hcs : CACHE_SIZE = 128 := rfl
  have hf : (cache.filter (fun e => e.1 != url)).length ≤ cache.length :=
    List.length_filter_le _ _
  refine ⟨?_, ?_, ?_, ?_, ?_, ?_⟩
  · intro hlen
    simp only [set_cache]
    by_cases hc : (cache.filter (fun e => e.1 != url)).length = CACHE_SIZE
    · rw [if_pos hc, List.length_append, List.length_tail]
      simp only [List.length_singleton]
      omega
    · rw [if_neg hc, List.length_append]
      simp only [List.length_singleton]
      omega
  · simp only [get_cache]
    cases hl : cache.lookup url with
    | none => simp
    | some p =>
        obtain ⟨res, exp⟩ := p
        by_cases he : exp ≤ now
        · simpa [he] using List.length_filter_le _ _
        · simp [he]
  · intro hl he
    simp [get_cache, hl, he]
  · intro hl he
    have hne : ¬ expires ≤ now := by omega
    simp [get_cache, hl, hne]
  · simp only [set_cache]
    apply lookup_append_single
    intro e he
    have hef : e ∈ cache.filter (fun x => x.1 != url) := by
      by_cases hc : (cache.filter (fun x => x.1 != url)).length = CACHE_SIZE
      · rw [if_pos hc] at he
        exact List.mem_of_mem_tail he
      · rwa [if_neg hc] at he
    have hp := (List.mem_filter.mp hef).2
    simpa [bne_iff_ne] using hp
  · intro hmem
    have hfe : cache.filter (fun e => e.1 != url) = cache := by
      apply List.filter_eq_self.mpr
      intro e he
      rw [bne_iff_ne]
      intro hequ
      exact hmem (List.mem_map.mpr ⟨e, he, hequ⟩)
    constructor
    · intro hcap
      simp only [set_cache, hfe]
      rw [if_pos hcap]
    · intro hlt
      simp only [set_cache, hfe]
      rw [if_neg (by omega)]

/-- A sample resource for concrete evaluations. -/
def sample_resource : Resource := { url := "e", content_type := "text/html" }

/-- A cache filled to capacity with 128 distinct one-character keys. -/
def full_cache : Cache :=
  (List.range 128).map (fun i => (String.mk [Char.ofNat (200 + i)], sample_resource, 10))

set_option maxRecDepth 16384 in
/-- C3 witness: the maintenance properties at concrete caches — an
insertion into an empty cache, an expired get, a live get, the fresh
expiry, eviction of the head of a cache at capacity, and no eviction
under capacity. -/
theorem c3_cache_maintenance_witness :
    ((set_cache [] "u" sample_resource 5).length ≤ CACHE_SIZE) ∧
    (get_cache [("u", sample_resource, 5)] "u" 5 =
      (none, [("u", sample_resource, 5)].filter (fun e => e.1 != "u"))) ∧
    (get_cache [("u", sample_resource, 9)] "u" 5 =
      (some sample_resource, [("u", sample_resource, 9)])) ∧
    ((set_cache [] "u" sample_resource 5).lookup "u" =
      some (sample_resource, 5 + CACHE_TTL)) ∧
    (set_cache full_cache "u" sample_resource 5 =
      full_cache.tail ++ [("u", sample_resource, 5 + CACHE_TTL)]) ∧
    (set_cache [] "u" sample_resource 5 =
      [] ++ [("u", sample_resource, 5 + CACHE_TTL)]) :=
  ⟨(c3_cache_maintenance [] "u" sample_resource sample_resource 5 0).1 (by decide),
   (c3_cache_maintenance [("u", sample_resource, 5)] "u" sample_resource
      sample_resource 5 5).2.2.1 rfl (by decide),
   (c3_cache_maintenance [("u", sample_resource, 9)] "u" sample_resource
      sample_resource 5 9).2.2.2.1 rfl (by decide),
   (c3_cache_maintenance [] "u" sample_resource sample_resource 5 0).2.2.2.2.1,
   ((c3_cache_maintenance full_cache "u" sample_resource sample_resource 5
      0).2.2.2.2.2 (by decide)).1 (by decide),
   ((c3_cache_maintenance [] "u" sample_resource sample_resource 5
      0).2.2.2.2.2 (by decide)).2 (by decide)⟩

theorem length_filter_partition {α : Type} (l : List α) (p : α → Bool) :
    (l.filter (fun a => !(p a))).length + (l.filter p).length = l.length := by
  induction l with
  | nil => rfl
  | cons a t ih =>
      by_cases h : p a
      · simp [List.filter_cons, h]
        omega
      · simp [List.filter_cons, h]
        omega

/-- C9: garbage_collect keeps exactly the stored files whose filename is
named by some reference URL and deletes the rest; the returned count plus
the kept files account for every stored file (it returns the number
deleted); with an empty reference collection every stored file is deleted;
and a subsequent Files.read of a file URL naming a file no longer stored
raises a lookup error. -/
theorem c9_garbage_collect (fs : FilesState) (references : List String) :
    (∀ e, e ∈ (Files.garbage_collect fs references).2.store ↔
      (e ∈ fs.store ∧ ∃ u ∈ references, lstrip_slash (url_path u) = e.1)) ∧
    ((Files.garbage_collect fs references).1 +
      (Files.garbage_collect fs references).2.store.length = fs.store.length) ∧
    (Files.garbage_collect fs [] = (fs.store.length, ⟨[]⟩)) ∧
    (∀ url name, (url_scheme_rest url).1 = "file" →
      lstrip_slash (url_path url) = name →
      (Files.garbage_collect fs references).2.store.lookup name = none →
      Files.read (Files.garbage_collect fs references).2 url =
        .error (.lookupError url)) := by
  refine ⟨?_, ?_, ?_, ?_⟩
  · intro e
    simp only [Files.garbage_collect, List.mem_filter, List.contains_eq_any_beq,
               List.any_eq_true, List.mem_map, beq_iff_eq]
    constructor
    · rintro ⟨he, ⟨_, ⟨u, hu, rfl⟩, hname⟩⟩
      exact ⟨he, u, hu, hname.symm⟩
    · rintro ⟨he, u, hu, hname⟩
      exact ⟨he, ⟨lstrip_slash (url_path u), ⟨u, hu, rfl⟩, hname.symm⟩⟩
  · exact length_filter_partition fs.store _
  · simp [Files.garbage_collect, List.filter_true, List.filter_false]
  · intro url name hscheme hname hlook
    rcases hg : guess_type name with _ | ct
    · simp [Files.read, hscheme, hname, hg]
    · simp [Files.read, hscheme, hname, hg, hlook]

/-- C9 witness: a two-file store garbage collected against one reference
keeps the referenced file, deletes the other (count one), and a read of
the deleted file's URL then raises the lookup error; the empty reference
collection deletes both. -/
theorem c9_garbage_collect_witness :
    (("a.png", ([1] : Bytes)) ∈
        (Files.garbage_collect ⟨[("a.png", [1]), ("b.png", [2])]⟩
          ["file:/a.png"]).2.store ↔
      (("a.png", ([1] : Bytes)) ∈
          ([("a.png", [1]), ("b.png", [2])] : List (String × Bytes)) ∧
        ∃ u ∈ ["file:/a.png"], lstrip_slash (url_path u) = "a.png")) ∧
    Files.garbage_collect (⟨[("a.png", [1]), ("b.png", [2])]⟩ : FilesState) [] =
      (2, ⟨[]⟩) ∧
    Files.read (Files.garbage_collect ⟨[("a.png", [1]), ("b.png", [2])]⟩
        ["file:/a.png"]).2 "file:/b.png" = .error (.lookupError "file:/b.png") :=
  ⟨(c9_garbage_collect ⟨[("a.png", [1]), ("b.png", [2])]⟩ ["file:/a.png"]).1
      ("a.png", [1]),
   (c9_garbage_collect ⟨[("a.png", [1]), ("b.png", [2])]⟩ []).2.2.1,
   (c9_garbage_collect ⟨[("a.png", [1]), ("b.png", [2])]⟩ ["file:/a.png"]).2.2.2
      "file:/b.png" "b.png" (by decide) (by decide) (by decide)⟩

/-- C5 counterexample: the streaming scan is last-wins, not first-wins. On
the event stream HTMLParser produces for
a document with two title elements (texts A then B), the scan reports B;
on a stream with two meta tags for the key og:title (contents X then Y),
it reports Y. The first occurrence does not determine the result. -/
theorem c5_meta_scan_counterexample :
    (meta_run [.starttag "title" [], .text "A", .endtag "title",
               .starttag "title" [], .text "B", .endtag "title"]).meta.lookup "title" =
      some "B" ∧
    ¬ ((meta_run [.starttag "title" [], .text "A", .endtag "title",
                  .starttag "title" [], .text "B", .endtag "title"]).meta.lookup "title" =
        some "A") ∧
    (meta_run [.starttag "meta" [("name", some "og:title"), ("content", some "X")],
               .starttag "meta" [("name", some "og:title"), ("content", some "Y")]]).meta.lookup
        "og:title" = some "Y" ∧
    ¬ ((meta_run [.starttag "meta" [("name", some "og:title"), ("content", some "X")],
                  .starttag "meta" [("name", some "og:title"),
                                    ("content", some "Y")]]).meta.lookup "og:title" =
        some "X") := by
  decide

theorem empty_string_append (s : String) : "" ++ s = s := by
  cases s
  simp [String.ext_iff, String.data_append]

/-- C5 amended: the webpage scan keeps, for each meta key and for the
title, the value of the last occurrence in the document — a trailing meta
tag or title element overrides whatever came before, for any prefix of
events that left the scanner outside a title element — and the description
prefers the Open Graph title over the plain title (the plain title is used
only when og:title is absent or falsy). -/
theorem c5_meta_scan_amended (es : List HtmlEvent) (k v s : String)
    (meta : List (String × String)) (t : String) :
    ((meta_run es).read_tag_data = none →
      (meta_run (es ++ [.starttag "meta"
          [("name", some k), ("content", some v)]])).meta.lookup k = some v) ∧
    ((meta_run es).read_tag_data = none →
      (meta_run (es ++ [.starttag "title" [], .text s,
          .endtag "title"])).meta.lookup "title" = some s) ∧
    (meta.lookup "og:title" = some t → t ≠ "" →
      webpage_description meta = str_or_none t) ∧
    (meta.lookup "og:title" = none → meta.lookup "title" = some t → t ≠ "" →
      webpage_description meta = str_or_none t) := by
  refine ⟨?_, ?_, ?_, ?_⟩
  · intro h
    have hstep : meta_run (es ++ [HtmlEvent.starttag "meta"
        [("name", some k), ("content", some v)]]) =
        meta_step (meta_run es)
          (.starttag "meta" [("name", some k), ("content", some v)]) := by
      simp [meta_run, List.foldl_append]
    rw [hstep]
    simp only [meta_step, meta_handle_starttag, h, Option.isSome_none]
    simp only [Bool.false_eq_true, if_false, List.find?]
    norm_num
    exact lookup_dict_put _ _ _
  · intro h
    have hstep : meta_run (es ++ [HtmlEvent.starttag "title" [], .text s,
        .endtag "title"]) =
        meta_step (meta_step (meta_step (meta_run es) (.starttag "title" []))
          (.text s)) (.endtag "title") := by
      simp [meta_run, List.foldl_append]
    rw [hstep]
    simp only [meta_step, meta_handle_starttag, h, Option.isSome_none]
    norm_num
    rw [lookup_dict_append, lookup_dict_put]
    simp [empty_string_append]
  · intro h1 h2
    simp [webpage_description, py_or, h1, h2]
  · intro h1 h2 h3
    simp [webpage_description, py_or, h1, h2, h3]

/-- C5 amended witness: the last-wins steps on empty prefixes and the
Open Graph preference on concrete dictionaries. -/
theorem c5_meta_scan_amended_witness :
    ((meta_run ([] ++ [.starttag "meta"
        [("name", some "a"), ("content", some "b")]])).meta.lookup "a" = some "b") ∧
    ((meta_run ([] ++ [.starttag "title" [], .text "T",
        .endtag "title"])).meta.lookup "title" = some "T") ∧
    (webpage_description [("og:title", "OG"), ("title", "T")] = str_or_none "OG") ∧
    (webpage_description [("title", "T")] = str_or_none "T") :=
  ⟨(c5_meta_scan_amended [] "a" "b" "" [] "").1 rfl,
   (c5_meta_scan_amended [] "" "" "T" [] "").2.1 rfl,
   (c5_meta_scan_amended [] "" "" "" [("og:title", "OG"), ("title", "T")]
      "OG").2.2.1 rfl (by decide),
   (c5_meta_scan_amended [] "" "" "" [("title", "T")] "T").2.2.2 rfl rfl
      (by decide)⟩

end Micro
